import Mathlib

/-!
Verification of the proxy-switcher extension core: a shallow embedding of
the bypass-list normalizer, configuration validator, configuration factory,
foreign-format (Omega) detector and converter, and the storage layer, each
translated from the JavaScript sources, together with theorems settling the
frozen behavioural claims about them.
-/

namespace ProxySpec

/-- Model of a JavaScript value, covering the shapes that flow through the
configuration code: undefined, null, booleans, (integer) numbers, strings
and arrays. Objects that matter get their own dedicated structures. -/
inductive JsVal where
  | undefV
  | nullV
  | boolV (b : Bool)
  | numV (n : Int)
  | strV (s : String)
  | arrV (elems : List JsVal)
deriving Repr

/-- JavaScript falsiness of a value: undefined, null, false, 0 and the
empty string are falsy; every array (even empty) is truthy. -/
def jsFalsy : JsVal → Bool
  | .undefV => true
  | .nullV => true
  | .boolV b => !b
  | .numV n => n == 0
  | .strV s => s == ""
  | .arrV _ => false

/-- The whitespace class used by JavaScript String.prototype.trim and the
regex class backslash-s: ASCII whitespace plus the Unicode space
separators, NBSP, line and paragraph separators and the BOM. -/
def jsWs (c : Char) : Bool :=
  c == ' ' || c == '\t' || c == '\n' || c == '\r' ||
  c.toNat == 11 || c.toNat == 12 || c.toNat == 160 || c.toNat == 0x1680 ||
  (0x2000 ≤ c.toNat && c.toNat ≤ 0x200a) || c.toNat == 0x2028 ||
  c.toNat == 0x2029 || c.toNat == 0x202f || c.toNat == 0x205f ||
  c.toNat == 0x3000 || c.toNat == 0xfeff

/-- Drop trailing characters satisfying p (helper for trim). -/
def dropTrailing (p : Char → Bool) (l : List Char) : List Char :=
  (l.reverse.dropWhile p).reverse

/-- Characters of a string after JavaScript trim: leading and trailing
whitespace removed. -/
def trimChars (l : List Char) : List Char :=
  dropTrailing jsWs (l.dropWhile jsWs)

/-- JavaScript String.prototype.trim. -/
def jsTrim (s : String) : String := String.mk (trimChars s.data)

/-- Decimal value of a digit run. -/
def decValue (l : List Char) : Nat :=
  l.foldl (fun a c => a * 10 + (c.toNat - 48)) 0

/-- Parse a leading run of decimal digits; none when there is no digit
(this is the NaN outcome of parseInt). -/
def parseDecLead (l : List Char) : Option Nat :=
  let ds := l.takeWhile Char.isDigit
  if ds.isEmpty then none else some (decValue ds)

/-- Hexadecimal digit test. -/
def isHexDigitCh (c : Char) : Bool :=
  c.isDigit || (97 ≤ c.toNat && c.toNat ≤ 102) || (65 ≤ c.toNat && c.toNat ≤ 70)

/-- Value of a hexadecimal digit. -/
def hexDigitValue (c : Char) : Nat :=
  if c.isDigit then c.toNat - 48
  else if 97 ≤ c.toNat then c.toNat - 87
  else c.toNat - 55

/-- Parse a leading run of hexadecimal digits. -/
def parseHexLead (l : List Char) : Option Nat :=
  let ds := l.takeWhile isHexDigitCh
  if ds.isEmpty then none else some (ds.foldl (fun a c => a * 16 + hexDigitValue c) 0)

/-- Magnitude part of JavaScript parseInt: with no explicit radix a 0x or
0X prefix switches to hexadecimal, otherwise the leading decimal digits
are taken; an empty digit run is NaN (none). -/
def parseMag (hexAllowed : Bool) (l : List Char) : Option Nat :=
  if hexAllowed then
    match l with
    | '0' :: x :: r =>
      if x == 'x' || x == 'X' then parseHexLead r
      else parseDecLead ('0' :: x :: r)
    | _ => parseDecLead l
  else parseDecLead l

/-- JavaScript parseInt on a string: skip leading whitespace, optional
sign, then the digit run (hex only when no radix was passed, mirrored by
the hexAllowed flag); none models NaN. -/
def jsParseIntStr (hexAllowed : Bool) (s : String) : Option Int :=
  match s.data.dropWhile jsWs with
  | '-' :: r => (parseMag hexAllowed r).map (fun n => -(n : Int))
  | '+' :: r => (parseMag hexAllowed r).map (fun n => (n : Int))
  | r => (parseMag hexAllowed r).map (fun n => (n : Int))

mutual
/-- JavaScript ToString on the modelled values (used by parseInt when it
receives a non-string argument). -/
def jsToStr : JsVal → String
  | .undefV => "undefined"
  | .nullV => "null"
  | .boolV true => "true"
  | .boolV false => "false"
  | .numV n => toString n
  | .strV s => s
  | .arrV l => jsArrJoin l

/-- Array ToString: elements stringified and joined with commas. -/
def jsArrJoin : List JsVal → String
  | [] => ""
  | [v] => jsElemToStr v
  | v :: vs => jsElemToStr v ++ "," ++ jsArrJoin vs

/-- Array element stringification: null and undefined print as empty. -/
def jsElemToStr : JsVal → String
  | .undefV => ""
  | .nullV => ""
  | .boolV true => "true"
  | .boolV false => "false"
  | .numV n => toString n
  | .strV s => s
  | .arrV l => jsArrJoin l
end

/-- JavaScript parseInt applied to an arbitrary value. -/
def jsParseInt (hexAllowed : Bool) (v : JsVal) : Option Int :=
  jsParseIntStr hexAllowed (jsToStr v)

/-- utils.js sanitizeInput: non-strings become the empty string; strings
are trimmed, cut to maxLength and stripped of angle brackets. -/
def sanitizeInput (input : JsVal) (maxLength : Nat) : String :=
  match input with
  | .strV s => String.mk (((jsTrim s).data.take maxLength).filter
      (fun c => !(c == '<') && !(c == '>')))
  | _ => ""

/-- Helper for jsSplitChar: walk the characters, cutting at the
separator; acc holds the current piece reversed. -/
def splitCharAux (sep : Char) : List Char → List Char → List String
  | [], acc => [String.mk acc.reverse]
  | c :: cs, acc =>
    if c == sep then String.mk acc.reverse :: splitCharAux sep cs []
    else splitCharAux sep cs (c :: acc)

/-- JavaScript String.prototype.split with a single-character separator:
the empty string yields one empty piece, and n separators yield n plus one
pieces. -/
def jsSplitChar (sep : Char) (s : String) : List String := splitCharAux sep s.data []

/-- constants.js DEFAULT_BYPASS_LIST. -/
def DEFAULT_BYPASS_LIST : List String := ["localhost", "127.0.0.1", "<local>"]

/-- constants.js MAX_PROXY_NAME_LENGTH. -/
def MAX_PROXY_NAME_LENGTH : Nat := 100

/-- constants.js PORT_MIN. -/
def PORT_MIN : Int := 1

/-- constants.js PORT_MAX. -/
def PORT_MAX : Int := 65535

/-- constants.js MAX_PAC_SCRIPT_SIZE. -/
def MAX_PAC_SCRIPT_SIZE : Nat := 1048576

/-- Object.values(PROXY_TYPES) from constants.js. -/
def PROXY_TYPE_VALUES : List String :=
  ["http", "https", "socks4", "socks5", "pac", "auto_detect", "direct"]

/-- constants.js DEFAULT_PROXY_COLOR. -/
def DEFAULT_PROXY_COLOR : String := "#2196F3"

/-- Input shape of generateBypassList: the domains argument can be absent
or another falsy value, a string, an array of strings, or some other
truthy non-array value. -/
inductive BypassInput where
  | absent
  | str (s : String)
  | arr (l : List String)
  | other
deriving Repr, DecidableEq

/-- The final filter of generateBypassList: keep entries that are truthy
and have a non-empty trim. -/
def jsSurvivors (l : List String) : List String :=
  l.filter (fun d => !(d == "") && decide (0 < (jsTrim d).length))

/-- proxy-manager.js generateBypassList: falsy input returns the default
bypass list; a string is split on commas, each piece trimmed and empty
pieces dropped; a non-array at that point returns the default list;
finally entries with an empty trim are filtered out. -/
def generateBypassList : BypassInput → List String
  | .absent => DEFAULT_BYPASS_LIST
  | .other => DEFAULT_BYPASS_LIST
  | .str s =>
    if s == "" then DEFAULT_BYPASS_LIST
    else jsSurvivors (((jsSplitChar ',' s).map jsTrim).filter (fun d => decide (0 < d.length)))
  | .arr l => jsSurvivors l

/-- Verdict record returned by the validator. -/
structure Verdict where
  valid : Bool
  error : Option String
deriving Repr, DecidableEq

/-- The fields of a configuration object that the validator reads or
writes; others collects any remaining fields, which the validator never
touches. -/
structure ConfigObj where
  name : JsVal
  type : JsVal
  host : JsVal
  port : JsVal
  pacScript : JsVal
  bypassList : JsVal
  others : List (String × JsVal)
deriving Repr

/-- Input to validateProxyConfig: either not an object (null, undefined or
a primitive, which the first guard rejects) or an object with fields. -/
inductive ValidateInput where
  | nonObject
  | obj (c : ConfigObj)
deriving Repr

/-- Does the character list start with the given pattern. -/
def startsWithSeq : List Char → List Char → Bool
  | [], _ => true
  | _ :: _, [] => false
  | p :: ps, c :: cs => p == c && startsWithSeq ps cs

/-- Does the character list contain the pattern as a contiguous
subsequence (JavaScript String.prototype.includes). -/
def containsSeq (pat : List Char) : List Char → Bool
  | [] => startsWithSeq pat []
  | c :: cs => startsWithSeq pat (c :: cs) || containsSeq pat cs

/-- JavaScript includes on strings. -/
def strIncludes (pat s : String) : Bool := containsSeq pat.data s.data

/-- Strip a literal character sequence, returning the rest on success. -/
def stripLit : List Char → List Char → Option (List Char)
  | [], l => some l
  | _ :: _, [] => none
  | p :: ps, c :: cs => if p == c then stripLit ps cs else none

/-- Match of the validator regex for the PAC entry function at the start
of the list: the word function, one or more whitespace, the name
FindProxyForURL, optional whitespace, an opening parenthesis. -/
def matchSigAt (l : List Char) : Bool :=
  match stripLit ("function").data l with
  | none => false
  | some r1 =>
    if (r1.takeWhile jsWs).isEmpty then false
    else
      match stripLit ("FindProxyForURL").data (r1.dropWhile jsWs) with
      | none => false
      | some r2 =>
        match r2.dropWhile jsWs with
        | c :: _ => c == '('
        | [] => false

/-- Unanchored search for the PAC function signature regex. -/
def testFunctionSig : List Char → Bool
  | [] => matchSigAt []
  | c :: cs => matchSigAt (c :: cs) || testFunctionSig cs

/-- The opening curly brace character. -/
def openBraceChar : Char := Char.ofNat 123

/-- The closing curly brace character. -/
def closeBraceChar : Char := Char.ofNat 125

/-- Number of occurrences of a character in a string. -/
def countChar (ch : Char) (s : String) : Nat :=
  (s.data.filter (fun c => c == ch)).length

/-- One to three decimal digits (the regex piece backslash-d 1,3). -/
def isDigitRun13 (seg : String) : Bool :=
  decide (0 < seg.length) && decide (seg.length ≤ 3) && seg.data.all Char.isDigit

/-- The validator ipPattern regex, anchored: four runs of one to three
digits separated by dots. -/
def ipPatternTest (host : String) : Bool :=
  match jsSplitChar '.' host with
  | [a, b, c, d] => isDigitRun13 a && isDigitRun13 b && isDigitRun13 c && isDigitRun13 d
  | _ => false

/-- The octet check performed when ipPattern matched: every dot-separated
part parses (radix 10) to a number between 0 and 255. -/
def ipOctetsOk (host : String) : Bool :=
  (jsSplitChar '.' host).all (fun part =>
    match jsParseIntStr false part with
    | some n => decide (0 ≤ n) && decide (n ≤ 255)
    | none => false)

/-- ASCII letter or digit. -/
def isAlnumCh (c : Char) : Bool := c.isAlpha || c.isDigit

/-- One DNS label of the validator regexes: an alphanumeric character,
optionally followed by up to 61 alphanumeric-or-hyphen characters ending
in an alphanumeric character. -/
def labelOk (l : List Char) : Bool :=
  match l with
  | [] => false
  | c :: rest =>
    isAlnumCh c &&
    (match rest.reverse with
     | [] => true
     | lastC :: midRev =>
       isAlnumCh lastC && decide (midRev.length ≤ 61) &&
       midRev.all (fun ch => isAlnumCh ch || ch == '-'))

/-- The validator domainPattern regex, anchored: one or more labels each
followed by a dot, then a top-level part of at least two letters. -/
def domainPatternTest (host : String) : Bool :=
  match (jsSplitChar '.' host).reverse with
  | [] => false
  | [_] => false
  | tld :: labelsRev =>
    decide (2 ≤ tld.length) && tld.data.all (fun c => c.isAlpha) &&
    labelsRev.all (fun lab => labelOk lab.data)

/-- The validator hostnamePattern regex, anchored: a single label. -/
def hostnamePatternTest (host : String) : Bool := labelOk host.data

/-- Outcome of the validator body: an early or final return of a verdict,
or a thrown exception message (caught by the wrapper). -/
inductive VOut where
  | ret (v : Verdict)
  | thrown (msg : String)
deriving Repr, DecidableEq

/-- Final check of the validator: when bypassList is a (truthy) array its
length must be at most 100; otherwise the configuration is valid. -/
def bypassLenCheck (c : ConfigObj) : Verdict :=
  match c.bypassList with
  | .arrV l =>
    if 100 < l.length then ⟨false, some ("Bypass list is too long (max 100 entries)")⟩
    else ⟨true, none⟩
  | _ => ⟨true, none⟩

/-- PAC branch of the validator: required non-empty script (trim throws
when the field is a truthy non-string), size bound, FindProxyForURL
substring, function-signature regex, balanced braces, no script tags. -/
def pacBranch (c : ConfigObj) : VOut × ConfigObj :=
  if jsFalsy c.pacScript then
    (.ret ⟨false, some ("PAC script is required for PAC type")⟩, c)
  else
    match c.pacScript with
    | .strV ps =>
      if jsTrim ps == "" then
        (.ret ⟨false, some ("PAC script is required for PAC type")⟩, c)
      else
        let script := jsTrim ps
        if MAX_PAC_SCRIPT_SIZE < script.length then
          (.ret ⟨false, some ("PAC script exceeds maximum size of 1048576 bytes")⟩, c)
        else if !(strIncludes ("FindProxyForURL") script) then
          (.ret ⟨false, some ("PAC script must contain FindProxyForURL function")⟩, c)
        else if !(testFunctionSig script.data) then
          (.ret ⟨false, some ("PAC script must have function FindProxyForURL(url, host)")⟩, c)
        else if !(countChar openBraceChar script == countChar closeBraceChar script) then
          (.ret ⟨false, some ("PAC script has unmatched braces")⟩, c)
        else if strIncludes ("<script>") script || strIncludes ("</script>") script then
          (.ret ⟨false, some ("PAC script contains invalid HTML tags")⟩, c)
        else (.ret (bypassLenCheck c), c)
    | _ => (.thrown ("config.pacScript.trim is not a function"), c)

/-- Server branch of the validator (HTTP, HTTPS, SOCKS4, SOCKS5): host
required (trim throws on a truthy non-string), length bound, IP or domain
or hostname shape with the octet sub-check inside the IP case, port in
range; on success the host field is overwritten with its trimmed value
before the final bypass-list check. -/
def serverBranch (c : ConfigObj) : VOut × ConfigObj :=
  if jsFalsy c.host then (.ret ⟨false, some ("Proxy host is required")⟩, c)
  else
    match c.host with
    | .strV h =>
      if jsTrim h == "" then (.ret ⟨false, some ("Proxy host is required")⟩, c)
      else
        let host := jsTrim h
        if 255 < host.length then
          (.ret ⟨false, some ("Host name is too long (max 255 characters)")⟩, c)
        else if ipPatternTest host && !(ipOctetsOk host) then
          (.ret ⟨false, some ("Invalid IP address format")⟩, c)
        else if !(ipPatternTest host) && !(domainPatternTest host) && !(hostnamePatternTest host) then
          (.ret ⟨false, some ("Invalid host format. Use a valid domain name or IP address")⟩, c)
        else
          match jsParseInt false c.port with
          | none => (.ret ⟨false, some ("Port must be between 1 and 65535")⟩, c)
          | some port =>
            if port < PORT_MIN || PORT_MAX < port then
              (.ret ⟨false, some ("Port must be between 1 and 65535")⟩, c)
            else
              (.ret (bypassLenCheck { c with host := .strV host }),
               { c with host := .strV host })
    | _ => (.thrown ("config.host.trim is not a function"), c)

/-- Body of validateProxyConfig on an object input, following the source
order: name checks, type checks, then the per-type branch. -/
def validateBody (c : ConfigObj) : VOut × ConfigObj :=
  match c.name with
  | .strV nm =>
    if nm == "" || jsTrim nm == "" then
      (.ret ⟨false, some ("Proxy name is required")⟩, c)
    else if MAX_PROXY_NAME_LENGTH < (jsTrim nm).length then
      (.ret ⟨false, some ("Proxy name must be 100 characters or less")⟩, c)
    else
      match c.type with
      | .strV ty =>
        if ty == "" then (.ret ⟨false, some ("Proxy type is required")⟩, c)
        else if !(PROXY_TYPE_VALUES.contains ty) then
          (.ret ⟨false, some ("Invalid proxy type")⟩, c)
        else if ty == "pac" then pacBranch c
        else if ty == "auto_detect" || ty == "direct" then (.ret ⟨true, none⟩, c)
        else serverBranch c
      | _ => (.ret ⟨false, some ("Proxy type is required")⟩, c)
  | _ => (.ret ⟨false, some ("Proxy name is required")⟩, c)

/-- proxy-manager.js validateProxyConfig: non-objects are rejected by the
first guard; the body runs inside a try-catch that converts any thrown
exception into an invalid verdict. The second component is the state of
the argument after the call (the body may assign to the host field). -/
def validateProxyConfig : ValidateInput → Verdict × ValidateInput
  | .nonObject => (⟨false, some ("Invalid configuration object")⟩, .nonObject)
  | .obj c =>
    let r := validateBody c
    match r.fst with
    | .ret v => (v, .obj r.snd)
    | .thrown m => (⟨false, some (("Validation error: ") ++ m)⟩, .obj r.snd)

/-- Input record of createProxyConfig. -/
structure CreateData where
  name : JsVal
  type : JsVal
  host : JsVal
  port : JsVal
  bypassList : JsVal
  pacScript : JsVal
  color : JsVal
deriving Repr

/-- A stored proxy configuration as produced by createProxyConfig. Fields
that the factory always normalizes to a string (name, host) or number
(port) are typed as such; type, pacScript and color pass raw values
through and stay modelled as JavaScript values. -/
structure NativeConfig where
  id : String
  name : String
  type : JsVal
  host : String
  port : Int
  bypassList : List String
  pacScript : JsVal
  isActive : Bool
  createdAt : String
  lastUsed : Option String
  color : JsVal
deriving Repr

/-- JavaScript or-else on values: the first truthy operand. -/
def jsOr (v d : JsVal) : JsVal := if jsFalsy v then d else v

/-- JavaScript or-else on strings. -/
def strOr (s d : String) : String := if s == "" then d else s

/-- proxy-manager.js createProxyConfig; the random id and the creation
timestamp are passed in as parameters. -/
def createProxyConfig (freshId nowIso : String) (data : CreateData) : NativeConfig :=
  let nm := sanitizeInput (jsOr data.name (.strV ("Untitled Proxy"))) MAX_PROXY_NAME_LENGTH
  let h := sanitizeInput (jsOr data.host (.strV (""))) 255
  { id := freshId
    name := strOr (jsTrim nm) ("Untitled Proxy")
    type := jsOr data.type (.strV ("http"))
    host := jsTrim h
    port :=
      (match jsParseInt true data.port with
       | some n => if n == 0 then 8080 else n
       | none => 8080)
    bypassList :=
      (match data.bypassList with
       | .arrV l => (l.map (fun d => jsTrim (sanitizeInput d 255))).filter (fun d => !(d == ""))
       | _ => DEFAULT_BYPASS_LIST)
    pacScript := jsOr data.pacScript (.strV (""))
    isActive := false
    createdAt := nowIso
    lastUsed := none
    color := jsOr data.color (.strV DEFAULT_PROXY_COLOR) }

/-- The fallbackProxy sub-object of an Omega Fixed profile. -/
structure FallbackProxy where
  host : JsVal
  port : JsVal
  scheme : JsVal
deriving Repr

/-- One entry of an Omega bypassList; non-object entries behave like a
record whose fields are undefined. -/
structure BypassItem where
  conditionType : JsVal
  pattern : JsVal
deriving Repr

/-- An Omega Fixed profile as read by convertFixedProfile: a fallbackProxy
sub-object (none models an absent or falsy field, which destructures to
undefined fields) and a bypassList (none models an absent or non-array
field). -/
structure OmegaFixedProfile where
  fallbackProxy : Option FallbackProxy
  bypassList : Option (List BypassItem)
deriving Repr

/-- Strict equality of a value with the string BypassCondition. -/
def isBypassConditionStr : JsVal → Bool
  | .strV s => s == "BypassCondition"
  | _ => false

/-- omega-parser.js convertBypassList: a non-array yields the default
bypass list; otherwise entries whose conditionType is BypassCondition and
whose pattern is truthy contribute their pattern, falling back to the
default list when none match. -/
def convertBypassList : Option (List BypassItem) → List JsVal
  | none => [.strV ("localhost"), .strV ("127.0.0.1"), .strV ("<local>")]
  | some items =>
    let doms := (items.filter
      (fun it => isBypassConditionStr it.conditionType && !(jsFalsy it.pattern))).map
      (fun it => it.pattern)
    if doms.isEmpty then [.strV ("localhost"), .strV ("127.0.0.1"), .strV ("<local>")]
    else doms

/-- The scheme switch of convertFixedProfile: the four known scheme
strings map to themselves, anything else defaults to http. -/
def mapOmegaScheme : JsVal → String
  | .strV s =>
    if s == "http" then "http"
    else if s == "https" then "https"
    else if s == "socks4" then "socks4"
    else if s == "socks5" then "socks5"
    else "http"
  | _ => "http"

/-- The colors palette of omega-parser.js. -/
def omegaColors : List String :=
  ["#2196F3", "#4CAF50", "#FF9800", "#9C27B0", "#F44336", "#00BCD4", "#FFEB3B", "#795548"]

/-- Wrap an integer into the signed 32-bit range (JavaScript ToInt32). -/
def toInt32 (n : Int) : Int :=
  let m := n % 4294967296
  if m < 2147483648 then m else m - 4294967296

/-- One step of the omega-parser name hash: hash shifted left by five as a
32-bit value, minus hash, plus the character code. -/
def colorHashStep (hash : Int) (code : Nat) : Int :=
  (code : Int) + (toInt32 (toInt32 hash * 32) - hash)

/-- omega-parser.js generateColorFromName. -/
def generateColorFromName (name : String) : String :=
  let hash := name.data.foldl (fun h c => colorHashStep h c.toNat) 0
  omegaColors.getD (hash.natAbs % omegaColors.length) ("")

/-- omega-parser.js convertFixedProfile: host, port and scheme are read
from the nested fallbackProxy sub-object; a falsy host or port skips the
profile; otherwise a native configuration is created with the mapped
scheme, the converted bypass list and a name-derived color. -/
def convertFixedProfile (name : String) (p : OmegaFixedProfile)
    (freshId nowIso : String) : Option NativeConfig :=
  let fb := p.fallbackProxy.getD ⟨.undefV, .undefV, .undefV⟩
  if jsFalsy fb.host || jsFalsy fb.port then none
  else
    some (createProxyConfig freshId nowIso
      { name := .strV name
        type := .strV (mapOmegaScheme fb.scheme)
        host := fb.host
        port := fb.port
        bypassList := .arrV (convertBypassList p.bypassList)
        pacScript := .undefV
        color := .strV (generateColorFromName name) })

/-- A parsed JSON object blob, as an ordered list of key-value pairs. -/
structure Blob where
  entries : List (String × JsVal)
deriving Repr

/-- Property read on a blob: undefined when the key is missing. -/
def jsLookup (b : Blob) (k : String) : JsVal :=
  match b.entries.lookup k with
  | some v => v
  | none => .undefV

/-- Array.isArray. -/
def isArr : JsVal → Bool
  | .arrV _ => true
  | _ => false

/-- The native-format check of isOmegaFormat: a truthy configs field that
is an array. -/
def hasConfigsArray (b : Blob) : Bool :=
  !(jsFalsy (jsLookup b ("configs"))) && isArr (jsLookup b ("configs"))

/-- Does any top-level key start with the given character. -/
def hasKeyStartingWith (b : Blob) (p : Char) : Bool :=
  b.entries.any (fun kv =>
    match kv.fst.data with
    | c :: _ => c == p
    | [] => false)

/-- Does the blob have a schemaVersion key. -/
def hasSchemaVersionKey (b : Blob) : Bool :=
  b.entries.any (fun kv => kv.fst == "schemaVersion")

/-- omega-parser.js isOmegaFormat: non-objects are not Omega; a blob with
a configs array is native (not Omega); otherwise a key starting with plus
means Omega; otherwise a schemaVersion field together with a key starting
with minus means Omega; anything else is not Omega. -/
def isOmegaFormat (data : Option Blob) : Bool :=
  match data with
  | none => false
  | some b =>
    if hasConfigsArray b then false
    else if hasKeyStartingWith b '+' then true
    else if hasSchemaVersionKey b && hasKeyStartingWith b '-' then true
    else false

/-- Classification outcome of detectAndConvertFormat. -/
inductive FormatKind where
  | omega
  | native
deriving Repr, DecidableEq

/-- storage.js detectAndConvertFormat, restricted to its classification:
Omega blobs convert through the Omega parser, blobs with a configs array
are native, and anything else throws the unknown-format error (surfaced
here as the error case). -/
def detectFormatKind (data : Option Blob) : Except String FormatKind :=
  if isOmegaFormat data then .ok .omega
  else
    match data with
    | some b =>
      if hasConfigsArray b then .ok .native
      else .error ("Invalid data format: Unable to detect format type")
    | none => .error ("Invalid data format: Unable to detect format type")

/-- constants.js DEFAULT_SETTINGS shape. -/
structure AppSettings where
  autoConnect : Bool
  defaultProxyId : Option String
  showNotifications : Bool
  quickSwitchCount : Int
deriving Repr, DecidableEq

/-- constants.js DEFAULT_SETTINGS value. -/
def DEFAULT_SETTINGS : AppSettings :=
  { autoConnect := false
    defaultProxyId := none
    showNotifications := true
    quickSwitchCount := 5 }

/-- One statistics entry. -/
structure StatEntry where
  connections : Int
  lastUsed : Option String
deriving Repr, DecidableEq

/-- The statistics record persisted under the statistics key. -/
structure Statistics where
  byProxy : List (String × StatEntry)
deriving Repr, DecidableEq

/-- The durable key-value store: the four persisted keys, each none when
the key is absent. The current-id key stores a string or null; none
models both an absent key and a stored null, which every read conflates
through its or-null default. -/
structure StoreState where
  proxyConfigs : Option (List NativeConfig)
  currentProxyId : Option String
  settings : Option AppSettings
  statistics : Option Statistics
deriving Repr

/-- Full state of the storage module: durable storage plus the in-memory
configs cache (configsCache, cacheValid). -/
structure PState where
  storage : StoreState
  configsCache : Option (List NativeConfig)
  cacheValid : Bool
deriving Repr

/-- storage.js getProxyConfigs: a valid non-null cache is returned
directly, otherwise the stored collection (or an empty list) is read and
the cache is populated. -/
def getProxyConfigs (s : PState) : List NativeConfig × PState :=
  if s.cacheValid && s.configsCache.isSome then (s.configsCache.getD [], s)
  else
    let configs := s.storage.proxyConfigs.getD []
    (configs, { s with configsCache := some configs, cacheValid := true })

/-- storage.js saveProxyConfig: append to the collection, write it back
and refresh the cache. -/
def saveProxyConfig (config : NativeConfig) (s : PState) : PState :=
  let r := getProxyConfigs s
  let configs2 := r.fst ++ [config]
  { storage := { r.snd.storage with proxyConfigs := some configs2 }
    configsCache := some configs2
    cacheValid := true }

/-- A patch object spread over an existing entry by updateProxyConfig;
absent fields leave the entry field unchanged. -/
structure ConfigPatch where
  id : Option String
  name : Option String
  type : Option JsVal
  host : Option String
  port : Option Int
  bypassList : Option (List String)
  pacScript : Option JsVal
  isActive : Option Bool
  createdAt : Option String
  lastUsed : Option (Option String)
  color : Option JsVal
deriving Repr

/-- The spread merge of updateProxyConfig. -/
def mergeConfig (c : NativeConfig) (p : ConfigPatch) : NativeConfig :=
  { id := p.id.getD c.id
    name := p.name.getD c.name
    type := p.type.getD c.type
    host := p.host.getD c.host
    port := p.port.getD c.port
    bypassList := p.bypassList.getD c.bypassList
    pacScript := p.pacScript.getD c.pacScript
    isActive := p.isActive.getD c.isActive
    createdAt := p.createdAt.getD c.createdAt
    lastUsed := p.lastUsed.getD c.lastUsed
    color := p.color.getD c.color }

/-- storage.js updateProxyConfig: find the entry by id; not found returns
false with nothing written; otherwise the patch is spread over the entry,
the collection is written back and the cache refreshed. -/
def updateProxyConfig (id : String) (patch : ConfigPatch) (s : PState) : Bool × PState :=
  let r := getProxyConfigs s
  match r.fst.findIdx? (fun c => c.id == id) with
  | none => (false, r.snd)
  | some i =>
    let configs2 := r.fst.mapIdx (fun j c => if j == i then mergeConfig c patch else c)
    (true,
     { storage := { r.snd.storage with proxyConfigs := some configs2 }
       configsCache := some configs2
       cacheValid := true })

/-- storage.js getCurrentProxyId: the stored value with falsy values read
as null. -/
def getCurrentProxyId (s : PState) : Option String :=
  match s.storage.currentProxyId with
  | some v => if v == "" then none else some v
  | none => none

/-- storage.js setCurrentProxyId. -/
def setCurrentProxyId (v : Option String) (s : PState) : PState :=
  { s with storage := { s.storage with currentProxyId := v } }

/-- storage.js deleteProxyConfig: filter out the id; an unchanged length
returns false with nothing written; otherwise the filtered collection is
written, the cache refreshed, and the current-id pointer cleared when it
referenced the deleted id. -/
def deleteProxyConfig (id : String) (s : PState) : Bool × PState :=
  let r := getProxyConfigs s
  let filtered := r.fst.filter (fun c => !(c.id == id))
  if filtered.length == r.fst.length then (false, r.snd)
  else
    let s2 : PState :=
      { storage := { r.snd.storage with proxyConfigs := some filtered }
        configsCache := some filtered
        cacheValid := true }
    if getCurrentProxyId s2 == some id then (true, setCurrentProxyId none s2)
    else (true, s2)

/-- storage.js initializeStorage: read the collection; when it is empty,
write the four keys with their defaults (empty collection, null current
id, default settings, empty statistics); otherwise write nothing. -/
def initializeStorage (s : PState) : PState :=
  let r := getProxyConfigs s
  if r.fst.length == 0 then
    { r.snd with storage :=
      { proxyConfigs := some []
        currentProxyId := none
        settings := some DEFAULT_SETTINGS
        statistics := some { byProxy := [] } } }
  else r.snd

/-- Creation input with only a port, used to state the concrete port
cases of the creation claim. -/
def portOnlyData (p : JsVal) : CreateData :=
  { name := .undefV, type := .undefV, host := .undefV, port := p,
    bypassList := .undefV, pacScript := .undefV, color := .undefV }

/-- The example foreign blob of the claim: a profile key and a
schemaVersion field. -/
def blobOmegaEx : Blob := { entries := [("+Proxy A", .strV ("x")), ("schemaVersion", .numV 1)] }

/-- The example native blob of the claim: a configs array next to a
profile-style key. -/
def blobNativeEx : Blob := { entries := [("configs", .arrV []), ("+Proxy A", .strV ("x"))] }

/-- An unclassifiable blob. -/
def blobUnknownEx : Blob := { entries := [("foo", .numV 1)] }

/-- The Fixed profile of the claim, named Work, with its proxy settings
nested in fallbackProxy. -/
def workProfile : OmegaFixedProfile :=
  { fallbackProxy := some
      { host := .strV ("proxy.example.com"), port := .numV 8080, scheme := .strV ("socks5") }
    bypassList := some [{ conditionType := .strV ("BypassCondition"), pattern := .strV ("*.local") }] }

/-- Coherence of the in-memory cache with durable storage: whenever the
cache is valid it holds exactly the stored collection, with an absent key
read as the empty list. The storage module establishes this on the first
read and preserves it across every operation. -/
def cacheOK (s : PState) : Prop :=
  s.cacheValid = true → s.configsCache = some (s.storage.proxyConfigs.getD [])

/-- The empty module state: nothing persisted, cache not yet populated. -/
def emptyPState : PState :=
  { storage := { proxyConfigs := none, currentProxyId := none, settings := none, statistics := none }
    configsCache := none
    cacheValid := false }

/-- Settings differing from the defaults (autoConnect switched on). -/
def customSettings : AppSettings :=
  { autoConnect := true, defaultProxyId := none, showNotifications := true, quickSwitchCount := 5 }

/-- A state whose collection key is present as an empty array while
non-default settings exist. -/
def presentEmptyState : PState :=
  { storage := { proxyConfigs := some [], currentProxyId := none,
                 settings := some customSettings, statistics := none }
    configsCache := none
    cacheValid := false }

/-- A one-entry collection used to instantiate the update claim. -/
def oneConfigState : PState :=
  { storage := { proxyConfigs := some [createProxyConfig ("id-A") ("t0") (portOnlyData (.numV 3128))],
                 currentProxyId := none, settings := none, statistics := none }
    configsCache := none
    cacheValid := false }

/-- The all-absent patch. -/
def emptyPatch : ConfigPatch :=
  { id := none
    name := none
    type := none
    host := none
    port := none
    bypassList := none
    pacScript := none
    isActive := none
    createdAt := none
    lastUsed := none
    color := none }

/-- Configuration A of the store scenario. -/
def cfgA : NativeConfig :=
  createProxyConfig ("id-A") ("t0")
    { name := .strV ("A"), type := .strV ("http"), host := .strV ("h.example.com"),
      port := .strV ("8080"), bypassList := .undefV, pacScript := .undefV, color := .undefV }

/-- The store after create(A) and setCurrentId(A.id) from the empty
state. -/
def scenarioS2 : PState := setCurrentProxyId (some ("id-A")) (saveProxyConfig cfgA emptyPState)

/-- The PAC-branch conditions of the validator over the (trimmed)
script: non-empty trim, size bound, FindProxyForURL substring, signature
regex, balanced braces and no script tags. -/
def pacOkConds (ps : String) : Prop :=
  jsTrim ps ≠ "" ∧
  (jsTrim ps).length ≤ MAX_PAC_SCRIPT_SIZE ∧
  strIncludes ("FindProxyForURL") (jsTrim ps) = true ∧
  testFunctionSig (jsTrim ps).data = true ∧
  countChar openBraceChar (jsTrim ps) = countChar closeBraceChar (jsTrim ps) ∧
  strIncludes ("<script>") (jsTrim ps) = false ∧
  strIncludes ("</script>") (jsTrim ps) = false

/-- A valid PAC configuration (braces written via their character
codes). -/
def cPacEx : ConfigObj :=
  { name := .strV ("P"), type := .strV ("pac"), host := .undefV, port := .undefV,
    pacScript := .strV ("function FindProxyForURL(url, host) \x7b return 0; \x7d"),
    bypassList := .undefV, others := [] }

/-- A server-type configuration whose host carries surrounding
whitespace and passes validation. -/
def cHostWs : ConfigObj :=
  { name := .strV ("My Proxy"), type := .strV ("http"), host := .strV (" example.com "),
    port := .strV ("8080"), pacScript := .undefV, bypassList := .undefV, others := [] }

/-- Classification of a validator-body outcome: a returned verdict is
either valid with a null error or invalid with a non-empty reason; a
thrown message is non-empty. -/
def outOK (out : VOut) : Prop :=
  match out with
  | .ret v => (v.valid = true ∧ v.error = none) ∨
      (v.valid = false ∧ ∃ m, v.error = some m ∧ m ≠ "")
  | .thrown m => m ≠ ""

/-- A PAC-typed configuration whose pacScript is a truthy non-string, on
which the trim call inside the validator throws. -/
def cThrowEx : ConfigObj :=
  { name := .strV ("P"), type := .strV ("pac"), host := .undefV, port := .undefV,
    pacScript := .numV 5, bypassList := .undefV, others := [] }

/-! Helper lemmas about JavaScript trim. -/
theorem length_dropWhile_le' (p : Char → Bool) (l : List Char) :
    (l.dropWhile p).length ≤ l.length := by
  induction l with
  | nil => simp
  | cons a l ih =>
    rw [List.dropWhile_cons]
    split
    · exact Nat.le_succ_of_le ih
    · simp

theorem head_false_of_dropWhile_fix (p : Char → Bool) (a : Char) (m : List Char)
    (Hm : List.dropWhile p (a :: m) = a :: m) : p a = false := by
  cases hpa : p a with
  | false => rfl
  | true =>
    rw [List.dropWhile_cons, if_pos hpa] at Hm
    have h1 : (List.dropWhile p m).length ≤ m.length := length_dropWhile_le' p m
    rw [Hm] at h1
    simp at h1

theorem dropTrailing_eq_rdropWhile (p : Char → Bool) (l : List Char) :
    dropTrailing p l = List.rdropWhile p l := rfl

theorem dropWhile_dropTrailing_fix (p : Char → Bool) (m : List Char)
    (Hm : List.dropWhile p m = m) :
    List.dropWhile p (dropTrailing p m) = dropTrailing p m := by
  cases m with
  | nil => simp [dropTrailing]
  | cons a m' =>
    have ha : p a = false := head_false_of_dropWhile_fix p a m' Hm
    unfold dropTrailing
    rw [List.reverse_cons, List.dropWhile_append]
    split
    · simp [List.dropWhile_cons, ha]
    · simp [List.reverse_append, List.dropWhile_cons, ha]

theorem trimChars_idem (l : List Char) : trimChars (trimChars l) = trimChars l := by
  unfold trimChars
  rw [dropWhile_dropTrailing_fix jsWs (l.dropWhile jsWs) (List.dropWhile_idempotent jsWs l)]
  rw [dropTrailing_eq_rdropWhile, dropTrailing_eq_rdropWhile]
  exact List.rdropWhile_idempotent jsWs _

theorem jsTrim_idem (s : String) : jsTrim (jsTrim s) = jsTrim s :=
  congrArg String.mk (trimChars_idem s.data)

theorem beq_empty_false_of_pos (d : String) (h : 0 < d.length) : (d == "") = false := by
  cases hb : d == "" with
  | false => rfl
  | true =>
    have : d = "" := eq_of_beq hb
    rw [this] at h
    simp at h

/-- Claim C1 (amended): generateBypassList returns the default bypass set
exactly when its input is absent (or otherwise falsy, including the empty
string) or a truthy non-string non-array; a non-empty comma-separated
string is split on commas with each piece trimmed and pieces with an
empty trim dropped; an array keeps its entries verbatim (untrimmed),
dropping those whose trim is empty; surviving entries keep their input
order; and when no entry survives the result is the empty list, not the
default bypass set. -/
theorem claim_C1_amended :
    (generateBypassList BypassInput.absent = DEFAULT_BYPASS_LIST ∧
     generateBypassList BypassInput.other = DEFAULT_BYPASS_LIST ∧
     generateBypassList (BypassInput.str ("")) = DEFAULT_BYPASS_LIST) ∧
    (∀ s : String, s ≠ "" →
      generateBypassList (BypassInput.str s) =
        ((jsSplitChar ',' s).map jsTrim).filter (fun d => decide (0 < d.length))) ∧
    (∀ l : List String,
      generateBypassList (BypassInput.arr l) =
        l.filter (fun d => decide (0 < (jsTrim d).length))) ∧
    (∀ l : List String, (generateBypassList (BypassInput.arr l)).Sublist l) ∧
    (∀ l : List String, (∀ d ∈ l, jsTrim d = "") →
      generateBypassList (BypassInput.arr l) = []) ∧
    (∀ s : String, s ≠ "" → (∀ d ∈ jsSplitChar ',' s, jsTrim d = "") →
      generateBypassList (BypassInput.str s) = []) := by
  refine ⟨⟨rfl, rfl, rfl⟩, ?_, ?_, ?_, ?_, ?_⟩
  · intro s hs
    simp only [generateBypassList]
    rw [if_neg (by simpa using hs)]
    apply List.filter_eq_self.mpr
    intro d hd
    rw [List.mem_filter] at hd
    obtain ⟨hdm, hdlen⟩ := hd
    rw [List.mem_map] at hdm
    obtain ⟨x, _, hx⟩ := hdm
    have hfix : jsTrim d = d := by rw [← hx]; exact jsTrim_idem x
    have hpos : 0 < d.length := of_decide_eq_true hdlen
    simp only [hfix]
    rw [beq_empty_false_of_pos d hpos]
    simpa using hpos
  · intro l
    simp only [generateBypassList, jsSurvivors]
    apply List.filter_congr
    intro d _
    cases hd : d == "" with
    | true =>
      have hde : d = "" := eq_of_beq hd
      subst hde
      decide
    | false => simp [hd]
  · intro l
    exact List.filter_sublist l
  · intro l h
    simp only [generateBypassList, jsSurvivors]
    apply List.filter_eq_nil_iff.mpr
    intro d hd
    rw [h d hd]
    simp
  · intro s hs h
    simp only [generateBypassList]
    rw [if_neg (by simpa using hs)]
    have hz : ((jsSplitChar ',' s).map jsTrim).filter (fun d => decide (0 < d.length)) = [] := by
      apply List.filter_eq_nil_iff.mpr
      intro d hd
      rw [List.mem_map] at hd
      obtain ⟨x, hxm, hx⟩ := hd
      rw [← hx, h x hxm]
      simp
    rw [hz]
    rfl

/-- Claim C1 counterexample: on the comma-only string the surviving
entries are empty, yet generateBypassList returns the empty list rather
than the default bypass set; and an array entry with surrounding
whitespace survives verbatim instead of being trimmed. Both contradict
the claim as stated. -/
theorem claim_C1_counterexample :
    generateBypassList (BypassInput.str (",")) = [] ∧
    generateBypassList (BypassInput.str (",")) ≠ DEFAULT_BYPASS_LIST ∧
    generateBypassList (BypassInput.arr ([" a "])) = [" a "] ∧
    ([" a "] : List String) ≠ (["a"]) := by
  refine ⟨rfl, by decide, rfl, by decide⟩

/-- Claim C1 witness: the amended theorem applied to the comma-only
string, whose pieces all trim to empty. -/
theorem claim_C1_witness : generateBypassList (BypassInput.str (",")) = [] :=
  claim_C1_amended.2.2.2.2.2 (",") (by decide) (by decide)

/-- Claim C10: createProxyConfig sets the port to the parseInt of the
submitted port when that parse yields a nonzero number and otherwise
substitutes 8080; creation never rejects a port, so a submitted 0 or abc
becomes 8080 and 80abc becomes 80. -/
theorem claim_C10_create_port :
    (∀ (fid now : String) (data : CreateData),
      (∃ n : Int, jsParseInt true data.port = some n ∧ n ≠ 0 ∧
          (createProxyConfig fid now data).port = n) ∨
      ((createProxyConfig fid now data).port = 8080 ∧
        (jsParseInt true data.port = none ∨ jsParseInt true data.port = some 0))) ∧
    (createProxyConfig ("i") ("t") (portOnlyData (.strV ("0")))).port = 8080 ∧
    (createProxyConfig ("i") ("t") (portOnlyData (.strV ("abc")))).port = 8080 ∧
    (createProxyConfig ("i") ("t") (portOnlyData (.strV ("80abc")))).port = 80 := by
  refine ⟨?_, rfl, rfl, rfl⟩
  intro fid now data
  have hport : (createProxyConfig fid now data).port =
      (match jsParseInt true data.port with
       | some n => if n == 0 then 8080 else n
       | none => (8080 : Int)) := rfl
  rcases hp : jsParseInt true data.port with _ | n
  · exact Or.inr ⟨by rw [hport, hp], Or.inl rfl⟩
  · by_cases hn : n = 0
    · subst hn
      exact Or.inr ⟨by rw [hport, hp]; simp, Or.inr rfl⟩
    · refine Or.inl ⟨n, rfl, hn, by rw [hport, hp]; simp [hn]⟩

/-- Claim C5: detection precedence of isOmegaFormat and the error path of
detectAndConvertFormat: a configs array makes a blob native regardless of
other keys; otherwise a key starting with plus means foreign; otherwise
schemaVersion together with a key starting with minus means foreign;
everything else is neither, and a non-foreign blob without a configs
array makes the import fail with the unrecognized-format error. -/
theorem claim_C5_format_detection :
    (∀ b : Blob, hasConfigsArray b = true → isOmegaFormat (some b) = false) ∧
    (∀ b : Blob, hasConfigsArray b = false → hasKeyStartingWith b '+' = true →
      isOmegaFormat (some b) = true) ∧
    (∀ b : Blob, hasConfigsArray b = false → hasSchemaVersionKey b = true →
      hasKeyStartingWith b '-' = true → isOmegaFormat (some b) = true) ∧
    (∀ b : Blob, hasKeyStartingWith b '+' = false →
      (hasSchemaVersionKey b = false ∨ hasKeyStartingWith b '-' = false) →
      isOmegaFormat (some b) = false) ∧
    (∀ b : Blob, isOmegaFormat (some b) = false → hasConfigsArray b = false →
      detectFormatKind (some b) =
        Except.error ("Invalid data format: Unable to detect format type")) := by
  refine ⟨?_, ?_, ?_, ?_, ?_⟩
  · intro b h
    simp [isOmegaFormat, h]
  · intro b h1 h2
    simp [isOmegaFormat, h1, h2]
  · intro b h1 h2 h3
    by_cases hplus : hasKeyStartingWith b '+' = true
    · simp [isOmegaFormat, h1, hplus]
    · simp [isOmegaFormat, h1, hplus, h2, h3]
  · intro b h1 h2
    rcases h2 with h2 | h2
    · simp [isOmegaFormat, h1, h2]
    · simp [isOmegaFormat, h1, h2]
  · intro b h1 h2
    simp [detectFormatKind, h1, h2]

/-- Claim C5 witness: the detection theorem applied to the concrete blobs
of the claim. -/
theorem claim_C5_witness :
    isOmegaFormat (some blobOmegaEx) = true ∧
    isOmegaFormat (some blobNativeEx) = false ∧
    detectFormatKind (some blobUnknownEx) =
      Except.error ("Invalid data format: Unable to detect format type") :=
  ⟨claim_C5_format_detection.2.1 blobOmegaEx (by decide) (by decide),
   claim_C5_format_detection.1 blobNativeEx (by decide),
   claim_C5_format_detection.2.2.2.2 blobUnknownEx (by decide) (by decide)⟩

/-- Claim C6: convertFixedProfile reads host, port and scheme from the
nested fallbackProxy sub-object: the Work profile of the claim yields a
SOCKS5 configuration with the nested host and port and the extracted
bypass pattern; a Fixed profile with a missing fallbackProxy, or a
missing host or port inside it, is skipped; and an unrecognized scheme
string yields an HTTP-typed configuration. -/
theorem claim_C6_convertFixedProfile :
    (∀ fid now : String,
      (convertFixedProfile ("Work") workProfile fid now).map (fun c => c.type)
          = some (JsVal.strV ("socks5")) ∧
      (convertFixedProfile ("Work") workProfile fid now).map (fun c => c.host)
          = some ("proxy.example.com") ∧
      (convertFixedProfile ("Work") workProfile fid now).map (fun c => c.port)
          = some (8080 : Int) ∧
      (convertFixedProfile ("Work") workProfile fid now).map (fun c => c.bypassList)
          = some (["*.local"]) ∧
      (convertFixedProfile ("Work") workProfile fid now).map (fun c => c.name)
          = some ("Work")) ∧
    (∀ (name fid now : String) (bl : Option (List BypassItem)),
      convertFixedProfile name { fallbackProxy := none, bypassList := bl } fid now = none) ∧
    (∀ (name fid now : String) (fb : FallbackProxy) (bl : Option (List BypassItem)),
      fb.host = JsVal.undefV ∨ fb.port = JsVal.undefV →
      convertFixedProfile name { fallbackProxy := some fb, bypassList := bl } fid now = none) ∧
    (∀ (name fid now : String) (hv pv : JsVal) (str : String) (bl : Option (List BypassItem)),
      jsFalsy hv = false → jsFalsy pv = false →
      str ∉ (["http", "https", "socks4", "socks5"] : List String) →
      (convertFixedProfile name
          { fallbackProxy := some { host := hv, port := pv, scheme := .strV str }, bypassList := bl }
          fid now).map (fun c => c.type) = some (JsVal.strV ("http"))) := by
  refine ⟨?_, ?_, ?_, ?_⟩
  · intro fid now
    exact ⟨rfl, rfl, rfl, rfl, rfl⟩
  · intro name fid now bl
    rfl
  · intro name fid now fb bl h
    rcases fb with ⟨fh, fp, fs⟩
    rcases h with h | h <;> simp at h <;> subst h <;>
      simp [convertFixedProfile, jsFalsy]
  · intro name fid now hv pv str bl h1 h2 h3
    simp only [List.mem_cons, List.mem_singleton, not_or] at h3
    obtain ⟨e1, e2, e3, e4⟩ := h3
    have hm : mapOmegaScheme (.strV str) = "http" := by
      simp [mapOmegaScheme, e1, e2, e3, e4]
    simp [convertFixedProfile, h1, h2, createProxyConfig, jsOr, jsFalsy, hm]
    exact ⟨_, ⟨⟨h1, h2⟩, rfl⟩, rfl⟩

/-- Claim C6 witness: the conversion theorem applied to a profile whose
fallbackProxy lacks a host and to one with an unrecognized scheme. -/
theorem claim_C6_witness :
    convertFixedProfile ("NoHost")
        { fallbackProxy := some { host := JsVal.undefV, port := JsVal.numV 1, scheme := JsVal.undefV }
          bypassList := none } ("i") ("t") = none ∧
    (convertFixedProfile ("X")
        { fallbackProxy := some { host := JsVal.strV ("h"), port := JsVal.numV 1, scheme := JsVal.strV ("ftp") }
          bypassList := none } ("i") ("t")).map (fun c => c.type) = some (JsVal.strV ("http")) :=
  ⟨claim_C6_convertFixedProfile.2.2.1 ("NoHost") ("i") ("t") _ none (Or.inl rfl),
   claim_C6_convertFixedProfile.2.2.2 ("X") ("i") ("t") (JsVal.strV ("h")) (JsVal.numV 1)
     ("ftp") none (by decide) (by decide) (by decide)⟩

theorem getProxyConfigs_spec (s : PState) (h : cacheOK s) :
    (getProxyConfigs s).fst = s.storage.proxyConfigs.getD [] ∧
    (getProxyConfigs s).snd.storage = s.storage := by
  unfold getProxyConfigs
  cases hv : s.cacheValid with
  | true =>
    have hc := h hv
    simp [hc]
  | false => simp [hv]

/-- Claim C3 (amended): initializeStorage writes the four default values
whenever the stored collection reads back as an empty list, which happens
both when the collection key is absent and when it is present as an empty
array; only a non-empty collection leaves the four keys untouched. In
particular a present-but-empty collection key alongside existing settings
or statistics does not protect them: they are overwritten with defaults. -/
theorem claim_C3_amended :
    ∀ s : PState, cacheOK s →
      ((s.storage.proxyConfigs.getD [] = []) →
        (initializeStorage s).storage =
          { proxyConfigs := some [], currentProxyId := none,
            settings := some DEFAULT_SETTINGS, statistics := some { byProxy := [] } }) ∧
      ((s.storage.proxyConfigs.getD [] ≠ []) →
        (initializeStorage s).storage = s.storage) := by
  intro s hok
  obtain ⟨h1, h2⟩ := getProxyConfigs_spec s hok
  constructor
  · intro he
    unfold initializeStorage
    simp only [h1, he]
    simp
  · intro hne
    unfold initializeStorage
    simp only [h1]
    rw [if_neg (by simpa [List.length_eq_zero] using hne)]
    exact h2

/-- Claim C3 counterexample: with the collection key present as an empty
array and non-default settings stored, initializeStorage overwrites the
settings key, so initialization is not restricted to an entirely absent
collection key. -/
theorem claim_C3_counterexample :
    presentEmptyState.storage.proxyConfigs = some [] ∧
    presentEmptyState.storage.settings = some customSettings ∧
    (initializeStorage presentEmptyState).storage.settings ≠ presentEmptyState.storage.settings := by
  refine ⟨rfl, rfl, ?_⟩
  decide

/-- Claim C3 witness: the amended theorem applied to the concrete state
with a present-but-empty collection key. -/
theorem claim_C3_witness :
    (initializeStorage presentEmptyState).storage =
      { proxyConfigs := some [], currentProxyId := none,
        settings := some DEFAULT_SETTINGS, statistics := some { byProxy := [] } } :=
  (claim_C3_amended presentEmptyState (by intro hx; exact absurd hx (by decide))).1 rfl

/-- Claim C9: updating an id that is not in the stored collection returns
false and leaves durable storage (in particular the collection) entirely
unchanged. -/
theorem claim_C9_update_missing :
    ∀ (s : PState) (id : String) (patch : ConfigPatch), cacheOK s →
      (∀ c ∈ s.storage.proxyConfigs.getD [], c.id ≠ id) →
      (updateProxyConfig id patch s).fst = false ∧
      (updateProxyConfig id patch s).snd.storage = s.storage := by
  intro s id patch hok hno
  obtain ⟨h1, h2⟩ := getProxyConfigs_spec s hok
  have hfind : ((getProxyConfigs s).fst).findIdx? (fun c => c.id == id) = none := by
    apply List.findIdx?_eq_none_iff.mpr
    intro c hc
    rw [h1] at hc
    simpa using hno c hc
  unfold updateProxyConfig
  simp only [hfind]
  exact ⟨trivial, h2⟩

/-- Claim C9 witness: updating an unknown id in the one-entry state
returns false and changes nothing. -/
theorem claim_C9_witness :
    (updateProxyConfig ("zzz") emptyPatch oneConfigState).fst = false ∧
    (updateProxyConfig ("zzz") emptyPatch oneConfigState).snd.storage =
      oneConfigState.storage :=
  claim_C9_update_missing oneConfigState ("zzz") emptyPatch
    (by intro hx; exact absurd hx (by decide))
    (by intro c hc; simp [oneConfigState] at hc; rw [hc]; decide)

/-- Claim C7: deleteProxyConfig removes exactly the entries carrying the
requested id and, when the current-id pointer referenced that id, clears
the pointer in the same operation; on a missing id nothing changes. The
second half runs the concrete scenario: from the empty store, create(A),
setCurrentId(A.id), delete(A.id) leaves getCurrentId() null. -/
theorem claim_C7_delete_selfheal :
    (∀ (s : PState) (id : String), cacheOK s →
      ((∀ c ∈ s.storage.proxyConfigs.getD [], c.id ≠ id) →
        (deleteProxyConfig id s).fst = false ∧ (deleteProxyConfig id s).snd.storage = s.storage) ∧
      ((∃ c ∈ s.storage.proxyConfigs.getD [], c.id = id) →
        (deleteProxyConfig id s).fst = true ∧
        (deleteProxyConfig id s).snd.storage.proxyConfigs =
          some ((s.storage.proxyConfigs.getD []).filter (fun c => !(c.id == id))) ∧
        (deleteProxyConfig id s).snd.storage.settings = s.storage.settings ∧
        (deleteProxyConfig id s).snd.storage.statistics = s.storage.statistics ∧
        (getCurrentProxyId s = some id → getCurrentProxyId (deleteProxyConfig id s).snd = none) ∧
        (getCurrentProxyId s ≠ some id →
          (deleteProxyConfig id s).snd.storage.currentProxyId = s.storage.currentProxyId))) ∧
    ((getProxyConfigs scenarioS2).fst = [cfgA] ∧
     getCurrentProxyId scenarioS2 = some ("id-A") ∧
     (deleteProxyConfig ("id-A") scenarioS2).fst = true ∧
     getCurrentProxyId (deleteProxyConfig ("id-A") scenarioS2).snd = none) := by
  constructor
  · intro s id hok
    obtain ⟨h1, h2⟩ := getProxyConfigs_spec s hok
    constructor
    · intro hno
      have hfil : ((getProxyConfigs s).fst).filter (fun c => !(c.id == id))
          = (getProxyConfigs s).fst := by
        apply List.filter_eq_self.mpr
        intro c hc
        rw [h1] at hc
        simpa using hno c hc
      unfold deleteProxyConfig
      simp only [hfil, beq_self_eq_true, if_true]
      exact ⟨trivial, h2⟩
    · intro hex
      obtain ⟨c0, hc0m, hc0id⟩ := hex
      have hlt : (((getProxyConfigs s).fst).filter (fun c => !(c.id == id))).length
          < ((getProxyConfigs s).fst).length := by
        apply List.length_filter_lt_length_iff_exists.mpr
        exact ⟨c0, by rw [h1]; exact hc0m, by simp [hc0id]⟩
      unfold deleteProxyConfig
      rw [if_neg (by simpa using Nat.ne_of_lt hlt)]
      simp only [getCurrentProxyId, setCurrentProxyId, h1, h2]
      split
      · rename_i hq
        refine ⟨rfl, rfl, rfl, rfl, fun _ => rfl, fun hne => ?_⟩
        exact absurd (eq_of_beq hq) hne
      · rename_i hq
        refine ⟨rfl, rfl, rfl, rfl, fun heq => ?_, fun _ => rfl⟩
        exact absurd (beq_iff_eq.mpr heq) hq
  · exact ⟨rfl, rfl, rfl, rfl⟩

/-- Claim C7 witness: the delete theorem applied to the scenario state
with the current id set to the deleted id. -/
theorem claim_C7_witness :
    (deleteProxyConfig ("id-A") scenarioS2).fst = true ∧
    getCurrentProxyId (deleteProxyConfig ("id-A") scenarioS2).snd = none := by
  have h := (claim_C7_delete_selfheal.1 scenarioS2 ("id-A") (fun _ => rfl)).2
    ⟨cfgA, List.Mem.head _, rfl⟩
  exact ⟨h.1, h.2.2.2.2.1 rfl⟩

theorem validateProxyConfig_obj_snd (c : ConfigObj) :
    (validateProxyConfig (.obj c)).snd = .obj (validateBody c).snd := by
  unfold validateProxyConfig
  dsimp only
  cases hout : (validateBody c).fst with
  | ret v => rfl
  | thrown m => rfl

theorem validate_valid_ret (c : ConfigObj)
    (hv : (validateProxyConfig (.obj c)).fst.valid = true) :
    ∃ v c2, validateBody c = (.ret v, c2) ∧ v.valid = true := by
  unfold validateProxyConfig at hv
  dsimp only at hv
  cases hout : (validateBody c).fst with
  | ret v =>
    rw [hout] at hv
    exact ⟨v, (validateBody c).snd, Prod.ext hout rfl, hv⟩
  | thrown m =>
    rw [hout] at hv
    simp at hv

theorem pac_valid_necessity (cn ch cp cps cb : JsVal) (co : List (String × JsVal))
    (v : Verdict) (c2 : ConfigObj)
    (h : validateBody
      { name := cn, type := .strV ("pac"), host := ch, port := cp,
        pacScript := cps, bypassList := cb, others := co } = (.ret v, c2))
    (hvv : v.valid = true) :
    ∃ s, cps = JsVal.strV s ∧ pacOkConds s := by
  unfold validateBody pacBranch at h
  simp at h
  repeat' split at h
  all_goals try (injection h with h1 h2; exact VOut.noConfusion h1)
  all_goals try (injection h with h1 h2; injection h1 with h1; subst h1; simp at hvv)
  rename_i hfal hne hmax hinc hsig hbr htags
  rw [not_or] at htags
  refine ⟨_, rfl, hne, Nat.le_of_not_lt hmax, ?_, ?_, hbr, ?_, ?_⟩
  · simpa using hinc
  · simpa using hsig
  · simpa using htags.1
  · simpa using htags.2

/-- Claim C4: for a configuration of type pac, the validator returns
valid only if the pacScript is a string whose trim is non-empty, at most
1048576 long, contains FindProxyForURL, matches the function-signature
regex, has equal counts of opening and closing braces and contains
neither script tag; failing any of these yields an invalid verdict. -/
theorem claim_C4_pac_validation :
    (∀ c : ConfigObj, c.type = JsVal.strV ("pac") →
      (validateProxyConfig (.obj c)).fst.valid = true →
      ∃ s, c.pacScript = JsVal.strV s ∧ pacOkConds s) ∧
    (∀ (c : ConfigObj) (s : String), c.type = JsVal.strV ("pac") →
      c.pacScript = JsVal.strV s → ¬ pacOkConds s →
      (validateProxyConfig (.obj c)).fst.valid = false) := by
  have main : ∀ c : ConfigObj, c.type = JsVal.strV ("pac") →
      (validateProxyConfig (.obj c)).fst.valid = true →
      ∃ s, c.pacScript = JsVal.strV s ∧ pacOkConds s := by
    intro c hty hv
    obtain ⟨v, c2, hb, hvv⟩ := validate_valid_ret c hv
    rcases c with ⟨cn, ct, ch, cp, cps, cb, co⟩
    simp only at hty
    subst hty
    exact pac_valid_necessity cn ch cp cps cb co v c2 hb hvv
  refine ⟨main, ?_⟩
  intro c s hty hps hnot
  cases hvb : (validateProxyConfig (.obj c)).fst.valid with
  | false => rfl
  | true =>
    obtain ⟨s2, hps2, hconds⟩ := main c hty hvb
    rw [hps] at hps2
    have hss : s = s2 := JsVal.strV.inj hps2
    subst hss
    exact absurd hconds hnot

/-- Claim C4 witness: the PAC theorem applied to a concrete valid PAC
configuration. -/
theorem claim_C4_witness :
    ∃ s, cPacEx.pacScript = JsVal.strV s ∧ pacOkConds s :=
  claim_C4_pac_validation.1 cPacEx rfl (by decide)

theorem pacBranch_frame (c : ConfigObj) : (pacBranch c).snd = c := by
  unfold pacBranch
  dsimp only
  repeat' split
  all_goals rfl

theorem serverBranch_frame (c : ConfigObj) :
    (serverBranch c).snd = c ∨
    ∃ h, c.host = JsVal.strV h ∧
      (serverBranch c).snd = { c with host := JsVal.strV (jsTrim h) } := by
  unfold serverBranch
  dsimp only
  repeat' split
  all_goals try exact Or.inl rfl
  all_goals exact Or.inr ⟨_, by assumption, rfl⟩

theorem validateBody_frame (c : ConfigObj) :
    (validateBody c).snd = c ∨
    ∃ h, c.host = JsVal.strV h ∧
      (validateBody c).snd = { c with host := JsVal.strV (jsTrim h) } := by
  unfold validateBody
  repeat' split
  all_goals try exact Or.inl rfl
  all_goals first
    | exact Or.inl (pacBranch_frame c)
    | exact serverBranch_frame c

/-- Claim C2 (amended): validateProxyConfig is pure except for the host
field: every other field of the configuration (and a non-object input)
is left unchanged by the call, while host is either unchanged or
overwritten in place with its trimmed string value. -/
theorem claim_C2_amended :
    (∀ c : ConfigObj,
      ∃ c2, (validateProxyConfig (.obj c)).snd = .obj c2 ∧
        c2.name = c.name ∧ c2.type = c.type ∧ c2.port = c.port ∧
        c2.pacScript = c.pacScript ∧ c2.bypassList = c.bypassList ∧ c2.others = c.others ∧
        (c2.host = c.host ∨ ∃ h, c.host = JsVal.strV h ∧ c2.host = JsVal.strV (jsTrim h))) ∧
    (validateProxyConfig .nonObject).snd = .nonObject := by
  refine ⟨?_, rfl⟩
  intro c
  refine ⟨(validateBody c).snd, validateProxyConfig_obj_snd c, ?_⟩
  rcases validateBody_frame c with hf | ⟨h, hh, hf⟩
  · rw [hf]
    exact ⟨rfl, rfl, rfl, rfl, rfl, rfl, Or.inl rfl⟩
  · rw [hf]
    exact ⟨rfl, rfl, rfl, rfl, rfl, rfl, Or.inr ⟨h, hh, rfl⟩⟩

/-- Claim C2 counterexample: validating this configuration overwrites its
host field with the trimmed value, so the configuration is not left
unchanged and validateProxyConfig is not free of side effects. -/
theorem claim_C2_counterexample :
    cHostWs.host = JsVal.strV (" example.com ") ∧
    (validateProxyConfig (.obj cHostWs)).snd =
      .obj { cHostWs with host := JsVal.strV ("example.com") } ∧
    JsVal.strV (" example.com ") ≠ JsVal.strV ("example.com") := by
  refine ⟨rfl, rfl, ?_⟩
  intro hcontra
  exact absurd (JsVal.strV.inj hcontra) (by decide)

theorem verdict_ok_bypass (c : ConfigObj) :
    ((bypassLenCheck c).valid = true ∧ (bypassLenCheck c).error = none) ∨
    ((bypassLenCheck c).valid = false ∧ ∃ m, (bypassLenCheck c).error = some m ∧ m ≠ "") := by
  unfold bypassLenCheck
  repeat' split
  all_goals first
    | exact Or.inr ⟨rfl, _, rfl, by decide⟩
    | exact Or.inl ⟨rfl, rfl⟩

theorem pacBranch_classify (c : ConfigObj) :
    ∀ out c2, pacBranch c = (out, c2) → outOK out := by
  intro out c2 h
  unfold pacBranch at h
  dsimp only at h
  repeat' split at h
  all_goals (injection h with h1 h2; rw [← h1]; unfold outOK)
  all_goals first
    | exact Or.inr ⟨rfl, _, rfl, by decide⟩
    | decide
    | exact verdict_ok_bypass c

theorem serverBranch_classify (c : ConfigObj) :
    ∀ out c2, serverBranch c = (out, c2) → outOK out := by
  intro out c2 h
  unfold serverBranch at h
  dsimp only at h
  repeat' split at h
  all_goals (injection h with h1 h2; rw [← h1]; unfold outOK)
  all_goals first
    | exact Or.inr ⟨rfl, _, rfl, by decide⟩
    | decide
    | exact verdict_ok_bypass _

theorem validateBody_classify (c : ConfigObj) :
    ∀ out c2, validateBody c = (out, c2) → outOK out := by
  intro out c2 h
  unfold validateBody at h
  repeat' split at h
  all_goals try exact pacBranch_classify c _ _ h
  all_goals try exact serverBranch_classify c _ _ h
  all_goals (injection h with h1 h2; rw [← h1]; unfold outOK)
  all_goals first
    | exact Or.inr ⟨rfl, _, rfl, by decide⟩
    | exact Or.inl ⟨rfl, rfl⟩

theorem validationError_ne_empty (m : String) :
    (("Validation error: ") ++ m) ≠ "" := by
  intro hc
  have hd : ("Validation error: ").data ++ m.data = ([] : List Char) := by
    have he : (("Validation error: ") ++ m).data = ("Validation error: ").data ++ m.data := rfl
    rw [← he, hc]
  have hb := List.append_eq_nil.mp hd
  simp at hb

/-- Claim C8: validateProxyConfig is total: every input, object or not,
produces a verdict; a valid verdict carries a null error, an invalid
verdict carries a non-empty reason, and a thrown internal exception is
converted into an invalid verdict whose reason is the message prefixed
with Validation error. -/
theorem claim_C8_validate_total :
    (∀ inp : ValidateInput,
      ((validateProxyConfig inp).fst.valid = true ∧ (validateProxyConfig inp).fst.error = none) ∨
      ((validateProxyConfig inp).fst.valid = false ∧
        ∃ m, (validateProxyConfig inp).fst.error = some m ∧ m ≠ "")) ∧
    (∀ (c : ConfigObj) (m : String) (c2 : ConfigObj),
      validateBody c = (.thrown m, c2) →
      (validateProxyConfig (.obj c)).fst =
        ⟨false, some (("Validation error: ") ++ m)⟩) := by
  constructor
  · intro inp
    cases inp with
    | nonObject => exact Or.inr ⟨rfl, _, rfl, by decide⟩
    | obj c =>
      have hcl := validateBody_classify c (validateBody c).fst (validateBody c).snd rfl
      unfold validateProxyConfig
      dsimp only
      cases hout : (validateBody c).fst with
      | ret v =>
        rw [hout] at hcl
        unfold outOK at hcl
        rcases hcl with ⟨h1, h2⟩ | ⟨h1, m, h2, h3⟩
        · exact Or.inl ⟨h1, h2⟩
        · exact Or.inr ⟨h1, m, h2, h3⟩
      | thrown m =>
        exact Or.inr ⟨rfl, ("Validation error: ") ++ m, rfl, validationError_ne_empty m⟩
  · intro c m c2 h
    have h1 : (validateBody c).fst = .thrown m := by rw [h]
    unfold validateProxyConfig
    dsimp only
    rw [h1]

/-- Claim C8 witness: the conversion clause applied to a configuration
that makes the validator body throw. -/
theorem claim_C8_witness :
    (validateProxyConfig (.obj cThrowEx)).fst =
      ⟨false, some (("Validation error: ") ++ ("config.pacScript.trim is not a function"))⟩ :=
  claim_C8_validate_total.2 cThrowEx ("config.pacScript.trim is not a function") cThrowEx rfl

end ProxySpec


